import Mathlib

/-!
Verification of the path-classification, destination-mapping and
restart-decision core of `toheute.py`.

Model: a repository-relative file path (Python `pathlib.Path`) is embedded
as its list of path components (`Path.parts`): a list of non-empty,
slash-free segment strings.  `str(path)` is `"/".join(parts)`, `path.name`
is the last component, and `path.relative_to(pre)` succeeds exactly when
the components of `pre` are a leading sublist of the components of the path
(otherwise Python raises `ValueError`, embedded as `none`).
The Python test `str.startswith(pre)` is plain character-wise string-prefix
testing, embedded as `List.isPrefixOf` on the character lists.
-/

/-- The string form of a component list: Python `str(Path(...))`,
i.e. `"/".join(parts)`. -/
def strPath : List String → String
  | [] => ""
  | [a] => a
  | a :: rest => a ++ "/" ++ strPath rest

/-- Python `s.startswith(pre)`: character-wise prefix test on strings. -/
def pyStartswith (s pre : String) : Bool :=
  pre.data.isPrefixOf s.data

/-- Python `s.startswith(tuple)`: true iff `s` starts with some element. -/
def startswithAny (s : String) (pres : List String) : Bool :=
  pres.any (fun pre => pyStartswith s pre)

/-- `PATH_PREFIX_BLOCK_LIST` from toheute.py line 27. -/
def PATH_PREFIX_BLOCK_LIST : List String := [".werks", "bin", "packages", "tests"]

/-- `PATH_PREFIX_ALLOW_LIST` from toheute.py line 28. -/
def PATH_PREFIX_ALLOW_LIST : List String := ["packages/cmk-frontend"]

/-- `Commit._is_valid_path` (toheute.py lines 183-186):
`not str(fpath).startswith(BLOCK) or str(fpath).startswith(ALLOW)`. -/
def is_valid_path (fpath : List String) : Bool :=
  let in_block_list := startswithAny (strPath fpath) PATH_PREFIX_BLOCK_LIST
  let in_allow_list := startswithAny (strPath fpath) PATH_PREFIX_ALLOW_LIST
  !in_block_list || in_allow_list

/-- `Commit.get_valid_paths` (toheute.py lines 174-175): the eligible
partition, in input order. -/
def get_valid_paths (filepaths : List (List String)) : List (List String) :=
  filepaths.filter (fun fp => is_valid_path fp)

/-- `Commit.get_invalid_paths` (toheute.py lines 177-178): the ineligible
partition, in input order. -/
def get_invalid_paths (filepaths : List (List String)) : List (List String) :=
  filepaths.filter (fun fp => !is_valid_path fp)

/-- `Commit.has_gui_change` (toheute.py lines 180-181): some eligible path
starts (as a string) with "cmk/gui". -/
def has_gui_change (filepaths : List (List String)) : Bool :=
  (get_valid_paths filepaths).any (fun fpath => pyStartswith (strPath fpath) "cmk/gui")

/-- Python `Path(base) / rel` for a relative `rel` given by its components:
appends "/" and the joined components unless `rel` has no components
(`Path(".")`), in which case the base is unchanged. -/
def pathJoin (base : String) (parts : List String) : String :=
  if parts.isEmpty then base else base ++ "/" ++ strPath parts

/-- Python `Path.name`: the final component ("" for an empty path). -/
def pathName (fpath : List String) : String :=
  (fpath.getLast?).getD ""

/-- Python `Path.relative_to(pre)` with `pre` given by its components:
drops the leading components when they match, otherwise raises
`ValueError` (embedded as `none`). -/
def relative_to (fpath pre : List String) : Option (List String) :=
  if pre.isPrefixOf fpath then some (fpath.drop pre.length) else none

/-- `FileManager._get_site_path` (toheute.py lines 241-249).  `none` models
the uncaught `ValueError` raised by `relative_to` inside the second match
arm. -/
def get_site_path (site : String) (fpath : List String) : Option String :=
  if pyStartswith (strPath fpath) "active_checks" then
    some ("/omd/sites/" ++ site ++ "/lib/nagios/plugins/" ++ pathName fpath)
  else if pyStartswith (strPath fpath) "packages/cmk-frontend/src" then
    match relative_to fpath ["packages", "cmk-frontend", "src"] with
    | some rp => some (pathJoin ("/omd/sites/" ++ site ++ "/share/check_mk/web/htdocs") rp)
    | none => none
  else
    some (pathJoin ("/omd/sites/" ++ site ++ "/lib/python3") fpath)

/-- The restart decision of `main` (toheute.py lines 56-64), as the ordered
sequence of restart actions that run.  Action names follow the fixed
vocabulary of the spec: `restart_checkmk` is "restart-core", `restart_apache`
is "reload-web-frontend", `restart_ui_scheduler` is "restart-ui-scheduler".
Line 56 skips every restart when `no_reload and not full_reload`; otherwise
line 61 always restarts the core, and lines 62-64 add the two interactive
UI actions when `full_reload or commit.has_gui_change()`. -/
def mainRestartPlan (noReload fullReload hasGuiChange : Bool) : List String :=
  if noReload && !fullReload then []
  else
    ["restart-core"] ++
      (if fullReload || hasGuiChange then ["reload-web-frontend", "restart-ui-scheduler"] else [])

example : is_valid_path ["cmk", "gui", "main.py"] = true := by decide
example : is_valid_path ["binocular", "foo.py"] = false := by decide
example : is_valid_path ["packages", "cmk-frontend", "src", "foo.ts"] = true := by decide
example : is_valid_path ["bin", "tool"] = false := by decide
example : is_valid_path [".werks", "12345"] = false := by decide
example : is_valid_path ["tests", "x.py"] = false := by decide
example : get_site_path "mysite" ["active_checks", "sub", "check_foo"] =
    some "/omd/sites/mysite/lib/nagios/plugins/check_foo" := by decide
example : get_site_path "mysite" ["packages", "cmk-frontend", "src", "js", "app.ts"] =
    some "/omd/sites/mysite/share/check_mk/web/htdocs/js/app.ts" := by decide
example : get_site_path "mysite" ["cmk", "base", "config.py"] =
    some "/omd/sites/mysite/lib/python3/cmk/base/config.py" := by decide
example : get_site_path "mysite" ["packages", "cmk-frontend", "srcx", "app.ts"] = none := by decide
example : mainRestartPlan false false false = ["restart-core"] := by decide
example : mainRestartPlan false true false =
    ["restart-core", "reload-web-frontend", "restart-ui-scheduler"] := by decide

/-- A list is a `isPrefixOf`-prefix of itself followed by anything. -/
theorem isPrefixOf_append_self {α : Type} [BEq α] [LawfulBEq α] (l t : List α) :
    l.isPrefixOf (l ++ t) = true := by
  induction l with
  | nil => simp [List.isPrefixOf]
  | cons a as ih => simp [List.isPrefixOf, ih]

/-- Transitivity of `isPrefixOf`. -/
theorem isPrefixOf_trans {α : Type} [BEq α] [LawfulBEq α] {l1 l2 l3 : List α}
    (h1 : l1.isPrefixOf l2 = true) (h2 : l2.isPrefixOf l3 = true) :
    l1.isPrefixOf l3 = true := by
  rw [ List.isPrefixOf_iff_prefix] at h1 h2 ⊢
  exact h1.trans h2

/-- Two prefixes of the same list agree on their first element. -/
theorem isPrefixOf_head_eq {α : Type} [BEq α] [LawfulBEq α] {a b : α} {as bs l : List α}
    (h1 : (a :: as).isPrefixOf l = true) (h2 : (b :: bs).isPrefixOf l = true) : a = b := by
  cases l with
  | nil => simp [List.isPrefixOf] at h1
  | cons c cs =>
    simp [List.isPrefixOf] at h1 h2
    exact h1.1.trans h2.1.symm

/-- `isPrefixOf` as existence of a list completion. -/
theorem isPrefixOf_iff_exists {α : Type} [BEq α] [LawfulBEq α] (l1 l2 : List α) :
    l1.isPrefixOf l2 = true ↔ ∃ t, l2 = l1 ++ t := by
  induction l1 generalizing l2 with
  | nil => simp [List.isPrefixOf]
  | cons a as ih =>
    cases l2 with
    | nil => simp [List.isPrefixOf]
    | cons b bs =>
      simp [List.isPrefixOf, ih]
      intro t ht
      exact eq_comm

/-- Two string prefixes of the same string begin with the same character. -/
theorem pyStartswith_head_eq {s p q : String} {a b : Char} {as bs : List Char}
    (hp : p.data = a :: as) (hq : q.data = b :: bs)
    (h1 : pyStartswith s p = true) (h2 : pyStartswith s q = true) : a = b := by
  unfold pyStartswith at h1 h2
  rw [hp] at h1
  rw [hq] at h2
  exact isPrefixOf_head_eq h1 h2

/-- Starting with a longer string implies starting with any prefix of it. -/
theorem pyStartswith_trans {s q p : String}
    (h1 : pyStartswith q p = true) (h2 : pyStartswith s q = true) :
    pyStartswith s p = true :=
  isPrefixOf_trans h1 h2

/-- A path whose components extend `packages/cmk-frontend/src` also starts
with that string. -/
theorem src_aligned_startswith {fpath : List String}
    (h : List.isPrefixOf ["packages", "cmk-frontend", "src"] fpath = true) :
    pyStartswith (strPath fpath) "packages/cmk-frontend/src" = true := by
  obtain ⟨t, rfl⟩ := (isPrefixOf_iff_exists _ _).mp h
  cases t with
  | nil => decide
  | cons b t2 =>
    show ("packages/cmk-frontend/src".data).isPrefixOf
      (strPath (["packages", "cmk-frontend", "src"] ++ (b :: t2))).data = true
    have e : (strPath (["packages", "cmk-frontend", "src"] ++ (b :: t2))).data
        = "packages/cmk-frontend/src".data ++ ('/' :: (strPath (b :: t2)).data) := rfl
    rw [e]
    exact isPrefixOf_append_self _ _

/-- C1 (counterexample): the claim says classification is path-segment-aware
and so `classify(["binocular/foo.py"])` is eligible; in the code
`str.startswith` matches the block entry "bin" on the partial segment
"binocular", so the path lands in the ineligible partition instead. -/
theorem classify_binocular_counterexample :
    get_valid_paths [["binocular", "foo.py"]] = [] ∧
    get_invalid_paths [["binocular", "foo.py"]] = [["binocular", "foo.py"]] := by decide

/-- C1 (amended): prefix matching in `Commit._is_valid_path` is a plain
string-prefix comparison, not segment-aware: every path whose string form
begins with the characters "bin" — segment boundary or not, e.g.
"binocular/foo.py" — is blocked and classified ineligible. -/
theorem classify_plain_string_block (fpath : List String)
    (h : pyStartswith (strPath fpath) "bin" = true) :
    get_valid_paths [fpath] = [] ∧ get_invalid_paths [fpath] = [fpath] := by
  have hallow : pyStartswith (strPath fpath) "packages/cmk-frontend" = false := by
    cases hc : pyStartswith (strPath fpath) "packages/cmk-frontend" with
    | false => rfl
    | true => exact absurd (pyStartswith_head_eq rfl rfl hc h) (by decide)
  have hvalid : is_valid_path fpath = false := by
    simp [is_valid_path, startswithAny, PATH_PREFIX_BLOCK_LIST, PATH_PREFIX_ALLOW_LIST,
      h, hallow]
  constructor <;> simp [get_valid_paths, get_invalid_paths, List.filter, hvalid]

/-- C1 (witness): the amended rule applied to the concrete path
"binocular/foo.py". -/
theorem classify_plain_string_block_witness :
    get_valid_paths [["binocular", "foo.py"]] = [] ∧
    get_invalid_paths [["binocular", "foo.py"]] = [["binocular", "foo.py"]] :=
  classify_plain_string_block ["binocular", "foo.py"] (by decide)

/-- C2 (counterexample): the claim says every eligible path starting with
"packages/cmk-frontend/src" maps to an htdocs destination; the eligible path
"packages/cmk-frontend/srcx/app.ts" starts with that string but is not
component-aligned, so `Path.relative_to` raises `ValueError` (modelled as
`none`) and no destination is produced. -/
theorem get_site_path_src_counterexample :
    is_valid_path ["packages", "cmk-frontend", "srcx", "app.ts"] = true ∧
    pyStartswith (strPath ["packages", "cmk-frontend", "srcx", "app.ts"])
      "packages/cmk-frontend/src" = true ∧
    get_site_path "mysite" ["packages", "cmk-frontend", "srcx", "app.ts"] = none := by decide

/-- C2 (amended): `FileManager._get_site_path` applies a first-match-wins
rule set: a path starting with "active_checks" maps to
`/omd/sites/{site}/lib/nagios/plugins/{basename}`; otherwise a path whose
components extend ["packages", "cmk-frontend", "src"] maps to
`/omd/sites/{site}/share/check_mk/web/htdocs/` plus the remaining
components; a path that merely string-starts with
"packages/cmk-frontend/src" without component alignment raises `ValueError`
(no destination); every other path maps to
`/omd/sites/{site}/lib/python3/` plus the full path. -/
theorem get_site_path_rules (site : String) (fpath : List String) :
    (pyStartswith (strPath fpath) "active_checks" = true →
      get_site_path site fpath =
        some ("/omd/sites/" ++ site ++ "/lib/nagios/plugins/" ++ pathName fpath)) ∧
    (pyStartswith (strPath fpath) "active_checks" = false →
      List.isPrefixOf ["packages", "cmk-frontend", "src"] fpath = true →
      get_site_path site fpath =
        some (pathJoin ("/omd/sites/" ++ site ++ "/share/check_mk/web/htdocs")
          (fpath.drop 3))) ∧
    (pyStartswith (strPath fpath) "active_checks" = false →
      pyStartswith (strPath fpath) "packages/cmk-frontend/src" = true →
      List.isPrefixOf ["packages", "cmk-frontend", "src"] fpath = false →
      get_site_path site fpath = none) ∧
    (pyStartswith (strPath fpath) "active_checks" = false →
      pyStartswith (strPath fpath) "packages/cmk-frontend/src" = false →
      get_site_path site fpath =
        some (pathJoin ("/omd/sites/" ++ site ++ "/lib/python3") fpath)) := by
  refine ⟨?_, ?_, ?_, ?_⟩
  · intro h1
    simp [get_site_path, h1]
  · intro h1 h2
    have hs := src_aligned_startswith h2
    simp [get_site_path, h1, hs, relative_to, h2]
  · intro h1 h2 h3
    simp [get_site_path, h1, h2, relative_to, h3]
  · intro h1 h2
    simp [get_site_path, h1, h2]

/-- C2 (witness): the four rules at concrete inputs for site "mysite". -/
theorem get_site_path_rules_witness :
    get_site_path "mysite" ["active_checks", "sub", "check_foo"] =
      some "/omd/sites/mysite/lib/nagios/plugins/check_foo" ∧
    get_site_path "mysite" ["packages", "cmk-frontend", "src", "js", "app.ts"] =
      some "/omd/sites/mysite/share/check_mk/web/htdocs/js/app.ts" ∧
    get_site_path "mysite" ["packages", "cmk-frontend", "srcx", "app.ts"] = none ∧
    get_site_path "mysite" ["cmk", "base", "config.py"] =
      some "/omd/sites/mysite/lib/python3/cmk/base/config.py" := by
  refine ⟨?_, ?_, ?_, ?_⟩
  · exact ((get_site_path_rules "mysite" ["active_checks", "sub", "check_foo"]).1
      (by decide)).trans (by decide)
  · exact ((get_site_path_rules "mysite"
      ["packages", "cmk-frontend", "src", "js", "app.ts"]).2.1
      (by decide) (by decide)).trans (by decide)
  · exact (get_site_path_rules "mysite"
      ["packages", "cmk-frontend", "srcx", "app.ts"]).2.2.1
      (by decide) (by decide) (by decide)
  · exact ((get_site_path_rules "mysite" ["cmk", "base", "config.py"]).2.2.2
      (by decide) (by decide)).trans (by decide)

/-- C3: whenever the skip condition `no_reload and not full_reload` is false,
the restart plan starts with "restart-core", contains the two interactive-UI
actions iff `full_reload or has_gui_change`, and in that case is exactly
["restart-core", "reload-web-frontend", "restart-ui-scheduler"]. -/
theorem restart_plan_core_first :
    ∀ noReload fullReload gui : Bool, (noReload && !fullReload) = false →
      (mainRestartPlan noReload fullReload gui).head? = some "restart-core" ∧
      (("reload-web-frontend" ∈ mainRestartPlan noReload fullReload gui) ↔
        (fullReload || gui) = true) ∧
      (("restart-ui-scheduler" ∈ mainRestartPlan noReload fullReload gui) ↔
        (fullReload || gui) = true) ∧
      ((fullReload || gui) = true →
        mainRestartPlan noReload fullReload gui =
          ["restart-core", "reload-web-frontend", "restart-ui-scheduler"]) := by decide

/-- C3 (witness): the plan at `no_reload = false`, `full_reload = true`,
`has_gui_change = false`. -/
theorem restart_plan_core_first_witness :
    (mainRestartPlan false true false).head? = some "restart-core" ∧
    mainRestartPlan false true false =
      ["restart-core", "reload-web-frontend", "restart-ui-scheduler"] := by
  have h := restart_plan_core_first false true false (by decide)
  exact ⟨h.1, h.2.2.2 (by decide)⟩

/-- C4: `Commit._is_valid_path` is exactly "not blocked, or allow-listed":
a path is eligible iff it does not start with any of ".werks", "bin",
"packages", "tests", or it starts with "packages/cmk-frontend"; moreover
any path starting with "packages/cmk-frontend" is eligible even though it
also starts with the block-listed "packages". -/
theorem is_valid_path_allow_overrides (fpath : List String) :
    (is_valid_path fpath = true ↔
      (¬(pyStartswith (strPath fpath) ".werks" = true ∨
         pyStartswith (strPath fpath) "bin" = true ∨
         pyStartswith (strPath fpath) "packages" = true ∨
         pyStartswith (strPath fpath) "tests" = true) ∨
       pyStartswith (strPath fpath) "packages/cmk-frontend" = true)) ∧
    (pyStartswith (strPath fpath) "packages/cmk-frontend" = true →
      is_valid_path fpath = true ∧ pyStartswith (strPath fpath) "packages" = true) := by
  constructor
  · simp [is_valid_path, startswithAny, PATH_PREFIX_BLOCK_LIST, PATH_PREFIX_ALLOW_LIST]
  · intro h
    refine ⟨by simp [is_valid_path, startswithAny, PATH_PREFIX_BLOCK_LIST,
      PATH_PREFIX_ALLOW_LIST, h], ?_⟩
    exact pyStartswith_trans (by decide) h

/-- C4 (witness): the allow-listed concrete path
"packages/cmk-frontend/src/foo.ts" is eligible although it starts with the
blocked "packages". -/
theorem is_valid_path_allow_overrides_witness :
    is_valid_path ["packages", "cmk-frontend", "src", "foo.ts"] = true ∧
    pyStartswith (strPath ["packages", "cmk-frontend", "src", "foo.ts"]) "packages" = true :=
  (is_valid_path_allow_overrides ["packages", "cmk-frontend", "src", "foo.ts"]).2 (by decide)

/-- C5: `Commit.has_gui_change` is true iff some eligible path starts with
"cmk/gui"; ineligible paths never contribute, and the empty input yields
false. -/
theorem has_gui_change_iff :
    (∀ filepaths : List (List String),
      (has_gui_change filepaths = true ↔
        ∃ fp, fp ∈ filepaths ∧ is_valid_path fp = true ∧
          pyStartswith (strPath fp) "cmk/gui" = true)) ∧
    has_gui_change [] = false := by
  constructor
  · intro ps
    unfold has_gui_change get_valid_paths
    rw [List.any_eq_true]
    constructor
    · rintro ⟨fp, hmem, hgui⟩
      rw [List.mem_filter] at hmem
      exact ⟨fp, hmem.1, hmem.2, hgui⟩
    · rintro ⟨fp, hmem, hvalid, hgui⟩
      exact ⟨fp, List.mem_filter.mpr ⟨hmem, hvalid⟩, hgui⟩
  · rfl

/-- C6: the restart plan of `main` is empty exactly when `no_reload` is set
and `full_reload` is not; with both flags set nothing is suppressed and all
three actions run. -/
theorem restart_plan_skip_iff :
    (∀ noReload fullReload gui : Bool,
      (mainRestartPlan noReload fullReload gui = [] ↔
        (noReload = true ∧ fullReload = false))) ∧
    (∀ gui : Bool, mainRestartPlan true true gui =
      ["restart-core", "reload-web-frontend", "restart-ui-scheduler"]) := by decide

/-- C7: `get_valid_paths` and `get_invalid_paths` partition the input: their
concatenation is a permutation of the input, they are disjoint, and every
input path lands in exactly one of them. -/
theorem classify_partition (filepaths : List (List String)) :
    List.Perm (get_valid_paths filepaths ++ get_invalid_paths filepaths) filepaths ∧
    (∀ fp, ¬(fp ∈ get_valid_paths filepaths ∧ fp ∈ get_invalid_paths filepaths)) ∧
    (∀ fp, fp ∈ filepaths ↔
      (fp ∈ get_valid_paths filepaths ∨ fp ∈ get_invalid_paths filepaths)) := by
  refine ⟨List.filter_append_perm (fun fp => is_valid_path fp) filepaths, ?_, ?_⟩
  · intro fp h
    obtain ⟨h1, h2⟩ := h
    unfold get_valid_paths at h1
    unfold get_invalid_paths at h2
    rw [List.mem_filter] at h1 h2
    have hv : is_valid_path fp = true := h1.2
    have hnv : (!is_valid_path fp) = true := h2.2
    rw [hv] at hnv
    exact absurd hnv (by decide)
  · intro fp
    constructor
    · intro hmem
      by_cases hv : is_valid_path fp = true
      · exact Or.inl (List.mem_filter.mpr ⟨hmem, hv⟩)
      · refine Or.inr (List.mem_filter.mpr ⟨hmem, ?_⟩)
        simp [Bool.not_eq_true] at hv
        simp [hv]
    · rintro (h | h) <;> exact (List.mem_filter.mp h).1

/-- C8: the partition is stable: each output sequence is a sublist of the
input sequence, hence preserves the relative order of the input. -/
theorem classify_stable (filepaths : List (List String)) :
    List.Sublist (get_valid_paths filepaths) filepaths ∧
    List.Sublist (get_invalid_paths filepaths) filepaths :=
  ⟨List.filter_sublist filepaths, List.filter_sublist filepaths⟩

/-- C9: the active_checks destination rule is not injective: two distinct
eligible paths under "active_checks" with the same basename map to the same
destination for site "mysite". -/
theorem active_checks_collision :
    ∃ p1 p2 : List String, p1 ≠ p2 ∧
      is_valid_path p1 = true ∧ is_valid_path p2 = true ∧
      pyStartswith (strPath p1) "active_checks" = true ∧
      pyStartswith (strPath p2) "active_checks" = true ∧
      pathName p1 = pathName p2 ∧
      get_site_path "mysite" p1 = some "/omd/sites/mysite/lib/nagios/plugins/check_x" ∧
      get_site_path "mysite" p2 = some "/omd/sites/mysite/lib/nagios/plugins/check_x" :=
  ⟨["active_checks", "a", "check_x"], ["active_checks", "b", "check_x"], by decide⟩

/-- C10: an eligible path starting with "packages/cmk-frontend" but not with
"packages/cmk-frontend/src" falls through to the default rule, keeping its
full repository-relative path under `/omd/sites/{site}/lib/python3/`. -/
theorem frontend_non_src_default (site : String) (fpath : List String)
    (hallow : pyStartswith (strPath fpath) "packages/cmk-frontend" = true)
    (hnotsrc : pyStartswith (strPath fpath) "packages/cmk-frontend/src" = false) :
    is_valid_path fpath = true ∧
    get_site_path site fpath =
      some ("/omd/sites/" ++ site ++ "/lib/python3" ++ "/" ++ strPath fpath) := by
  have hne : fpath ≠ [] := by
    rintro rfl
    exact absurd hallow (by decide)
  have hactive : pyStartswith (strPath fpath) "active_checks" = false := by
    cases hc : pyStartswith (strPath fpath) "active_checks" with
    | false => rfl
    | true => exact absurd (pyStartswith_head_eq rfl rfl hc hallow) (by decide)
  constructor
  · simp [is_valid_path, startswithAny, PATH_PREFIX_BLOCK_LIST, PATH_PREFIX_ALLOW_LIST,
      hallow]
  · simp [get_site_path, hactive, hnotsrc, pathJoin, List.isEmpty_iff, hne]

/-- C10 (witness): the concrete path "packages/cmk-frontend/build.sh" for
site "mysite". -/
theorem frontend_non_src_default_witness :
    is_valid_path ["packages", "cmk-frontend", "build.sh"] = true ∧
    get_site_path "mysite" ["packages", "cmk-frontend", "build.sh"] =
      some ("/omd/sites/" ++ "mysite" ++ "/lib/python3" ++ "/" ++
        strPath ["packages", "cmk-frontend", "build.sh"]) :=
  frontend_non_src_default "mysite" ["packages", "cmk-frontend", "build.sh"]
    (by decide) (by decide)

/-- C5 (witness): the GUI signal at the concrete inputs of the spec. -/
theorem has_gui_change_iff_witness :
    has_gui_change [["cmk", "gui", "main.py"], ["cmk", "base", "x.py"]] = true ∧
    has_gui_change [["cmk", "base", "x.py"]] = false := by
  constructor
  · exact (has_gui_change_iff.1 [["cmk", "gui", "main.py"], ["cmk", "base", "x.py"]]).mpr
      ⟨["cmk", "gui", "main.py"], by decide, by decide, by decide⟩
  · exact has_gui_change_iff.2.symm ▸ (by decide)

/-- C6 (witness): skip with `no_reload` alone; full plan with both flags. -/
theorem restart_plan_skip_iff_witness :
    mainRestartPlan true false true = [] ∧
    mainRestartPlan true true true =
      ["restart-core", "reload-web-frontend", "restart-ui-scheduler"] :=
  ⟨(restart_plan_skip_iff.1 true false true).mpr ⟨rfl, rfl⟩, restart_plan_skip_iff.2 true⟩

/-- C7 (witness): the partition of a concrete two-path input. -/
theorem classify_partition_witness :
    List.Perm (get_valid_paths [["cmk", "gui", "main.py"], ["bin", "tool"]] ++
      get_invalid_paths [["cmk", "gui", "main.py"], ["bin", "tool"]])
      [["cmk", "gui", "main.py"], ["bin", "tool"]] :=
  (classify_partition [["cmk", "gui", "main.py"], ["bin", "tool"]]).1

/-- C8 (witness): stability on a concrete two-path input. -/
theorem classify_stable_witness :
    List.Sublist (get_valid_paths [["cmk", "gui", "main.py"], ["bin", "tool"]])
      [["cmk", "gui", "main.py"], ["bin", "tool"]] ∧
    List.Sublist (get_invalid_paths [["cmk", "gui", "main.py"], ["bin", "tool"]])
      [["cmk", "gui", "main.py"], ["bin", "tool"]] :=
  classify_stable [["cmk", "gui", "main.py"], ["bin", "tool"]]
